import Mathlib

/-
Shallow embedding of src/sdi-refresh-monitor.c (snapd-desktop-integration).

The C file drives refresh-progress feedback from snapd notices.  The mutable
stores of struct _SdiRefreshMonitor are modelled as association lists keyed by
strings; the GLib hash table self.changes (changeId -> poll timer source id)
is modelled as the list of changeIds with a pending poll timer, together with
an explicit multiset (list) of outstanding one-shot timer sources.  External
calls (async snapd queries, dialog creation, signal emissions, launcher-entry
updates, logging) are recorded as elements of a MonitorAction trace.  The progress
fraction (a gdouble in C) is modelled as a rational number; the divisions the
program performs involve exact small values, so no rounding is observable.
-/

/- Status predicates, transcribed from status_is_done, cancelled_change_status
and valid_working_change_status; the comparison with the literal string Done
performed inline in manage_change_update is named done_change_status here. -/

def status_is_done (status : String) : Bool :=
  status == "Done" || status == "Abort" || status == "Error" || status == "Hold" ||
    status == "Wait" || status == "Undone"

def cancelled_change_status (status : String) : Bool :=
  status == "Undoing" || status == "Undone" || status == "Undo" || status == "Error"

def valid_working_change_status (status : String) : Bool :=
  status == "Do" || status == "Doing" || status == "Done"

def done_change_status (status : String) : Bool :=
  status == "Done"

/- Data carried by snapd objects, restricted to the fields the monitor reads.
The affected_snaps field models snapd_task_data_get_affected_snaps (absent when
the task carries no data payload); snap_names models the autorefresh change
data payload read by update_inhibited_snaps. -/

structure SnapdTask where
  status : String
  summary : String
  affected_snaps : Option (List String)
deriving DecidableEq

structure SnapdChange where
  id : String
  kind : String
  status : String
  tasks : List SnapdTask
  snap_names : Option (List String)
deriving DecidableEq

/- A dialog handle as created by sdi_refresh_dialog_new (app name and visible
name) plus the optional icon set on it. -/

structure DialogInfo where
  app_name : String
  visible_name : String
  icon : Option String
deriving DecidableEq

/- Per-snap record, mirroring the SdiSnap object stored in self.snaps. -/

structure SdiSnap where
  name : String
  inhibited : Bool
  ignored : Bool
  hidden : Bool
  manually_hidden : Bool
  dialog : Option DialogInfo
deriving DecidableEq

/- Per-snap dock progress data, mirroring SnapProgressTaskData. -/

structure SnapProgressTaskData where
  total_tasks : Nat
  done_tasks : Nat
  old_progress : Rat
  done : Bool
  desktop_files : List String
deriving DecidableEq

/- The monitor state.  snaps and refreshing_snap_list model the two hash
tables keyed by snap name; changes models the key set of the changes hash
table (changeIds with a pending poll timer); timers models the multiset of
outstanding g_timeout_add_once sources created for poll re-fires. -/

structure SdiRefreshMonitor where
  snaps : List (String × SdiSnap)
  changes : List String
  refreshing_snap_list : List (String × SnapProgressTaskData)
  timers : List String
deriving DecidableEq

/- Externally visible effects, in program order. -/

inductive MonitorAction where
  | scheduleTimer (change_id : String)
  | removePending (change_id : String)
  | fetchChange (change_id : String)
  | getSnapCompleted (snap_name : String)
  | getSnapBeginRefresh (snap_name : String)
  | createDialog (app_name visible_name : String) (icon : Option String)
  | pushProgress (dialog_app_name summary : String) (done total : Nat)
  | emitUpdate (desktop_file : String) (progress : Rat) (progress_visible updating : Bool)
  | emitPendingRefresh (snap_names : List String)
  | checkForcedRefresh (snap_name : String)
  | getSnapsRefreshInhibited
  | logMessage (msg : String)
deriving DecidableEq

/- Association-list operations standing in for the GLib hash tables (string
keys, unique per table; insert replaces an existing binding). -/

def alist_lookup {α : Type} (l : List (String × α)) (key : String) : Option α :=
  match l with
  | [] => none
  | kv :: rest => if kv.1 = key then some kv.2 else alist_lookup rest key

def alist_insert {α : Type} (l : List (String × α)) (key : String) (v : α) :
    List (String × α) :=
  match l with
  | [] => [(key, v)]
  | kv :: rest => if kv.1 = key then (key, v) :: rest else kv :: alist_insert rest key v

def alist_remove {α : Type} (l : List (String × α)) (key : String) :
    List (String × α) :=
  match l with
  | [] => []
  | kv :: rest => if kv.1 = key then rest else kv :: alist_remove rest key

/- find_snap / add_snap / the setter calls on SdiSnap objects.  In C the
setters mutate the object shared with the hash table; here the binding is
replaced. -/

def find_snap (self : SdiRefreshMonitor) (snap_name : String) : Option SdiSnap :=
  alist_lookup self.snaps snap_name

def sdi_snap_new (snap_name : String) : SdiSnap :=
  { name := snap_name, inhibited := false, ignored := false, hidden := false,
    manually_hidden := false, dialog := none }

def add_snap (self : SdiRefreshMonitor) (snap_name : String) :
    SdiRefreshMonitor × SdiSnap :=
  match find_snap self snap_name with
  | some snap => (self, snap)
  | none =>
    let snap := sdi_snap_new snap_name
    ({ self with snaps := alist_insert self.snaps snap_name snap }, snap)

def set_snap (self : SdiRefreshMonitor) (snap_name : String) (snap : SdiSnap) :
    SdiRefreshMonitor :=
  { self with snaps := alist_insert self.snaps snap_name snap }

/- remove_snap removes the record (the widget removal it also performs is
view-layer work carrying no monitor state). -/

def remove_snap (self : SdiRefreshMonitor) (snap_name : String) : SdiRefreshMonitor :=
  { self with snaps := alist_remove self.snaps snap_name }

/- new_progress_task_data; the desktop-file lookup is the external filesystem
collaborator get_desktop_filenames_for_snap, so its result is a parameter. -/

def new_progress_task_data (desktop_files : List String) : SnapProgressTaskData :=
  { total_tasks := 0, done_tasks := 0, old_progress := -1, done := false,
    desktop_files := desktop_files }

/- The task-scanning loop of update_inhibited_snaps: count of tasks whose
status is terminal, and the first task whose status is exactly Doing. -/

def count_step (acc : Nat × Option SnapdTask) (task : SnapdTask) :
    Nat × Option SnapdTask :=
  if status_is_done task.status then (acc.1 + 1, acc.2)
  else if acc.2.isNone && task.status == "Doing" then (acc.1, some task)
  else acc

def count_done_and_current (tasks : List SnapdTask) : Nat × Option SnapdTask :=
  tasks.foldl count_step (0, none)

/- One iteration of the snap-name loop in update_inhibited_snaps. -/

def update_inhibited_one (change : SnapdChange) (done cancelled : Bool)
    (acc : SdiRefreshMonitor × List MonitorAction) (snap_name : String) :
    SdiRefreshMonitor × List MonitorAction :=
  match find_snap acc.1 snap_name with
  | none => acc
  | some snap =>
    if snap.inhibited = false then acc
    else if done || cancelled then
      let self2 := remove_snap acc.1 snap_name
      if done then (self2, acc.2 ++ [MonitorAction.getSnapCompleted snap_name])
      else (self2, acc.2)
    else if snap.hidden || snap.manually_hidden then acc
    else
      match snap.dialog with
      | none =>
        (set_snap acc.1 snap_name { snap with ignored := true },
         acc.2 ++ [MonitorAction.getSnapBeginRefresh snap_name])
      | some dialog =>
        match count_done_and_current change.tasks with
        | (done_count, some current) =>
          (acc.1, acc.2 ++ [MonitorAction.pushProgress dialog.app_name current.summary
            done_count change.tasks.length])
        | (_, none) => acc

def update_inhibited_snaps (self : SdiRefreshMonitor) (change : SnapdChange)
    (done cancelled : Bool) : SdiRefreshMonitor × List MonitorAction :=
  match change.snap_names with
  | none => (self, [])
  | some names => names.foldl (update_inhibited_one change done cancelled) (self, [])

/- update_dock_bar, the per-entry body of the g_hash_table_foreach pass. -/

def update_dock_bar (td : SnapProgressTaskData) : SnapProgressTaskData × List MonitorAction :=
  if td.total_tasks = 0 then (td, [])
  else
    let progress : Rat := (td.done_tasks : Rat) / (td.total_tasks : Rat)
    let td1 := { td with done_tasks := 0, total_tasks := 0 }
    if progress = td1.old_progress ∧ td1.done = false then (td1, [])
    else
      let td2 := { td1 with old_progress := progress }
      if td2.desktop_files.length = 0 then (td2, [])
      else
        (td2, td2.desktop_files.map fun f =>
          MonitorAction.emitUpdate f progress (!td2.done) (!td2.done))

/- The task-accounting loop of update_dock_snaps over one task. -/

def dock_account_task (env : String → List String) (done cancelled : Bool)
    (task : SnapdTask)
    (acc : List (String × SnapProgressTaskData) × List String) :
    List (String × SnapProgressTaskData) × List String :=
  match task.affected_snaps with
  | none => acc
  | some affected =>
    let task_done := status_is_done task.status
    affected.foldl
      (fun acc2 snap_name =>
        let td :=
          match alist_lookup acc2.1 snap_name with
          | none => new_progress_task_data (env snap_name)
          | some td => td
        let td1 := { td with
          total_tasks := td.total_tasks + 1,
          done := task_done,
          done_tasks := td.done_tasks + (if task_done then 1 else 0) }
        (alist_insert acc2.1 snap_name td1,
         if done || cancelled then snap_name :: acc2.2 else acc2.2))
      acc

def update_dock_snaps (env : String → List String) (self : SdiRefreshMonitor)
    (change : SnapdChange) (done cancelled : Bool) :
    SdiRefreshMonitor × List MonitorAction :=
  let accounted := change.tasks.foldl
    (fun acc task => dock_account_task env done cancelled task acc)
    (self.refreshing_snap_list, [])
  let updated := accounted.1.map fun kv => (kv.1, update_dock_bar kv.2)
  let new_list := updated.map fun kv => (kv.1, kv.2.1)
  let acts := (updated.map fun kv => kv.2.2).flatten
  let final_list := accounted.2.foldl (fun l n => alist_remove l n) new_list
  ({ self with refreshing_snap_list := final_list }, acts)

/- Result of snapd_client_get_change_finish as seen by manage_change_update. -/

inductive ChangeResult where
  | cancelledError
  | otherError (msg : String)
  | ok (change : Option SnapdChange)
deriving DecidableEq

/- The two update passes manage_change_update runs before its scheduling
check: update_inhibited_snaps (for auto-refresh changes only), then
update_dock_snaps on the resulting state; traces are concatenated in
program order. -/

def manage_change_steps (env : String → List String) (self : SdiRefreshMonitor)
    (change : SnapdChange) (done cancelled : Bool) :
    SdiRefreshMonitor × List MonitorAction :=
  let step1 :=
    if change.kind == "auto-refresh" then
      update_inhibited_snaps self change done cancelled
    else (self, [])
  let step2 := update_dock_snaps env step1.1 change done cancelled
  (step2.1, step1.2 ++ step2.2)

def manage_change_update (env : String → List String) (self : SdiRefreshMonitor)
    (res : ChangeResult) : SdiRefreshMonitor × List MonitorAction :=
  match res with
  | .cancelledError => (self, [])
  | .otherError msg => (self, [MonitorAction.logMessage msg])
  | .ok none => (self, [])
  | .ok (some change) =>
    let done := done_change_status change.status
    let cancelled := cancelled_change_status change.status
    let valid_do := valid_working_change_status change.status
    if (valid_do || cancelled) = false then (self, [MonitorAction.logMessage change.status])
    else
      let step := manage_change_steps env self change done cancelled
      if done = false ∧ cancelled = false ∧ change.id ∉ step.1.changes then
        ({ step.1 with
            changes := change.id :: step.1.changes,
            timers := change.id :: step.1.timers },
         step.2 ++ [MonitorAction.scheduleTimer change.id])
      else step

/- refresh_change, the body run when a poll timer fires: remove the changeId
from the pending table, then issue the re-fetch.  The trace records the
removal event before the fetch request, matching the statement order. -/

def refresh_change (self : SdiRefreshMonitor) (change_id : String) :
    SdiRefreshMonitor × List MonitorAction :=
  let self1 := { self with changes := self.changes.erase change_id }
  (self1, [MonitorAction.removePending change_id, MonitorAction.fetchChange change_id])

/- A one-shot timer source is consumed by the main loop when it fires, before
refresh_change runs. -/

def fire_poll_timer (self : SdiRefreshMonitor) (change_id : String) :
    SdiRefreshMonitor × List MonitorAction :=
  refresh_change { self with timers := self.timers.erase change_id } change_id

/- Result of snapd_client_get_snaps_finish, reduced to the snap names. -/

inductive SnapsResult where
  | cancelledError
  | otherError (msg : String)
  | ok (snap_names : List String)
deriving DecidableEq

/- One iteration of the snap loop in manage_refresh_inhibit: accumulator is
(monitor, grouped flag, list-store contents, trace). -/

def inhibit_step (acc : SdiRefreshMonitor × Bool × List String × List MonitorAction)
    (snap_name : String) : SdiRefreshMonitor × Bool × List String × List MonitorAction :=
  let added := add_snap acc.1 snap_name
  let self1 := set_snap added.1 snap_name { added.2 with inhibited := true }
  (self1,
   acc.2.1 || !added.2.ignored,
   acc.2.2.1 ++ [snap_name],
   acc.2.2.2 ++ [MonitorAction.checkForcedRefresh snap_name])

def manage_refresh_inhibit (self : SdiRefreshMonitor) (res : SnapsResult) :
    SdiRefreshMonitor × List MonitorAction :=
  match res with
  | .cancelledError => (self, [])
  | .otherError msg => (self, [MonitorAction.logMessage msg])
  | .ok snap_names =>
    if snap_names.isEmpty then (self, [])
    else
      let r := snap_names.foldl inhibit_step (self, false, [], [])
      if r.2.1 then (r.1, r.2.2.2 ++ [MonitorAction.emitPendingRefresh r.2.2.1])
      else (r.1, r.2.2.2)

/- Result of snapd_client_get_snap_finish for begin_application_refresh.  The
display name and icon come from the desktop-file lookup on the returned snap
(absent when no desktop file is found). -/

structure SnapInfo where
  name : String
  display_name : Option String
  icon : Option String
deriving DecidableEq

inductive SnapInfoResult where
  | cancelledError
  | otherError (msg : String)
  | ok (snap : Option SnapInfo)
deriving DecidableEq

/- The generic-data branch of begin_application_refresh (query failed or
returned no snap): the raw snap name is used as both key and visible name. -/

def begin_refresh_generic (self : SdiRefreshMonitor) (snap_name : String) :
    SdiRefreshMonitor × List MonitorAction :=
  let added := add_snap self snap_name
  match added.2.dialog with
  | some _ => (added.1, [])
  | none =>
    let dialog : DialogInfo :=
      { app_name := snap_name, visible_name := snap_name, icon := none }
    (set_snap added.1 snap_name { added.2 with dialog := some dialog },
     [MonitorAction.createDialog snap_name snap_name none])

def begin_application_refresh (self : SdiRefreshMonitor) (query_snap_name : String)
    (res : SnapInfoResult) : SdiRefreshMonitor × List MonitorAction :=
  match res with
  | .cancelledError => (self, [])
  | .otherError _ => begin_refresh_generic self query_snap_name
  | .ok none => begin_refresh_generic self query_snap_name
  | .ok (some info) =>
    let added := add_snap self info.name
    match added.2.dialog with
    | some _ => (added.1, [])
    | none =>
      let visible := info.display_name.getD info.name
      let dialog : DialogInfo :=
        { app_name := info.name, visible_name := visible, icon := info.icon }
      (set_snap added.1 info.name { added.2 with dialog := some dialog },
       [MonitorAction.createDialog info.name visible info.icon])

/- The package whose record begin_application_refresh binds a dialog for:
the returned snap name on success, else the queried name; none when the
query was cancelled (the callback returns before touching any state). -/

def query_target (query_snap_name : String) : SnapInfoResult → Option String
  | .cancelledError => none
  | .otherError _ => some query_snap_name
  | .ok none => some query_snap_name
  | .ok (some info) => some info.name

/- The notice dispatcher notice_cb. -/

inductive NoticeType where
  | changeUpdate
  | refreshInhibit
  | snapRunInhibit
  | other
deriving DecidableEq

structure SnapdNotice where
  notice_type : NoticeType
  kind : String
  key : String
deriving DecidableEq

def notice_cb (self : SdiRefreshMonitor) (notice : SnapdNotice) (first_run : Bool) :
    SdiRefreshMonitor × List MonitorAction :=
  match notice.notice_type with
  | .changeUpdate =>
    if first_run then (self, [])
    else if notice.kind != "auto-refresh" && notice.kind != "refresh-snap" then
      (self, [])
    else (self, [MonitorAction.fetchChange notice.key])
  | .refreshInhibit => (self, [MonitorAction.getSnapsRefreshInhibited])
  | .snapRunInhibit => (self, [])
  | .other => (self, [])

/- Derived notions used by the statements. -/

def snap_ignored_flag (self : SdiRefreshMonitor) (snap_name : String) : Bool :=
  match find_snap self snap_name with
  | some snap => snap.ignored
  | none => false

def timers_ok (self : SdiRefreshMonitor) : Prop :=
  self.timers.Nodup ∧ self.changes.Nodup ∧
    ∀ change_id, change_id ∈ self.timers ↔ change_id ∈ self.changes

def is_schedule_action : MonitorAction → Bool
  | .scheduleTimer _ => true
  | _ => false

def no_desktop_env : String → List String := fun _ => []

/- Concrete states and inputs used to evaluate the theorems. -/

def empty_monitor : SdiRefreshMonitor :=
  { snaps := [], changes := [], refreshing_snap_list := [], timers := [] }

def c1_monitor : SdiRefreshMonitor :=
  { snaps := [], changes := ["1"], refreshing_snap_list := [], timers := ["1"] }

def c1_change : SnapdChange :=
  { id := "1", kind := "refresh-snap", status := "Doing", tasks := [], snap_names := none }

def c2_monitor : SdiRefreshMonitor :=
  { snaps := [], changes := ["7"], refreshing_snap_list := [], timers := ["7"] }

def c2_change : SnapdChange :=
  { id := "7", kind := "refresh-snap", status := "Done", tasks := [], snap_names := none }

def c3_dialog : DialogInfo :=
  { app_name := "spotify", visible_name := "Spotify", icon := none }

def c3_snap : SdiSnap :=
  { name := "spotify", inhibited := true, ignored := true, hidden := false,
    manually_hidden := false, dialog := some c3_dialog }

def c3_monitor : SdiRefreshMonitor :=
  { snaps := [("spotify", c3_snap)], changes := [], refreshing_snap_list := [],
    timers := [] }

def c4_td : SnapProgressTaskData :=
  { total_tasks := 10, done_tasks := 3, old_progress := -1, done := false,
    desktop_files := ["firefox_firefox.desktop"] }

def c5_change : SnapdChange :=
  { id := "9", kind := "refresh-snap", status := "Hold", tasks := [], snap_names := none }

def c7_dialog : DialogInfo :=
  { app_name := "firefox", visible_name := "Firefox", icon := none }

def c7_snap : SdiSnap :=
  { name := "firefox", inhibited := true, ignored := false, hidden := false,
    manually_hidden := false, dialog := some c7_dialog }

def c7_monitor : SdiRefreshMonitor :=
  { snaps := [("firefox", c7_snap)], changes := [], refreshing_snap_list := [],
    timers := [] }

def c7_task1 : SnapdTask :=
  { status := "Done", summary := "download", affected_snaps := none }

def c7_task2 : SnapdTask :=
  { status := "Doing", summary := "unpack", affected_snaps := none }

def c7_task3 : SnapdTask :=
  { status := "Do", summary := "configure", affected_snaps := none }

def c7_change : SnapdChange :=
  { id := "11", kind := "auto-refresh", status := "Doing",
    tasks := [c7_task1, c7_task2, c7_task3], snap_names := some ["firefox"] }

def c8_snapB : SdiSnap :=
  { name := "B", inhibited := false, ignored := true, hidden := false,
    manually_hidden := false, dialog := none }

def c8_monitor : SdiRefreshMonitor :=
  { snaps := [("B", c8_snapB)], changes := [], refreshing_snap_list := [],
    timers := [] }

def c9_td : SnapProgressTaskData :=
  { total_tasks := 3, done_tasks := 1, old_progress := -1, done := false,
    desktop_files := [] }

/- Association-list lemmas. -/

theorem alist_lookup_insert_self {α : Type} (l : List (String × α)) (key : String)
    (v : α) : alist_lookup (alist_insert l key v) key = some v := by
  induction l with
  | nil => simp [alist_insert, alist_lookup]
  | cons kv rest ih =>
    by_cases h : kv.1 = key
    · simp [alist_insert, alist_lookup, h]
    · simp [alist_insert, alist_lookup, h, ih]

theorem alist_lookup_insert_ne {α : Type} (l : List (String × α)) (key key2 : String)
    (v : α) (h : key ≠ key2) :
    alist_lookup (alist_insert l key v) key2 = alist_lookup l key2 := by
  induction l with
  | nil => simp [alist_insert, alist_lookup, h]
  | cons kv rest ih =>
    by_cases hk : kv.1 = key
    · simp [alist_insert, alist_lookup, hk, h]
    · by_cases hk2 : kv.1 = key2
      · simp [alist_insert, alist_lookup, hk, hk2, Ne.symm h]
      · simp [alist_insert, alist_lookup, hk, hk2, ih]

/- A task whose status is terminal never has status Doing. -/

theorem status_is_done_ne_doing (s : String) (h : status_is_done s = true) :
    (s == "Doing") = false := by
  cases hb : (s == "Doing") with
  | false => rfl
  | true =>
    have hs : s = "Doing" := by simpa using hb
    rw [hs] at h
    exact absurd h (by decide)

/- Evaluation lemmas for the scanning step of update_inhibited_snaps. -/

theorem count_step_done (n : Nat) (cur : Option SnapdTask) (t : SnapdTask)
    (h : status_is_done t.status = true) : count_step (n, cur) t = (n + 1, cur) := by
  simp [count_step, h]

theorem count_step_some (n : Nat) (c : SnapdTask) (t : SnapdTask)
    (h : status_is_done t.status = false) : count_step (n, some c) t = (n, some c) := by
  simp [count_step, h]

theorem count_step_found (n : Nat) (t : SnapdTask)
    (h : status_is_done t.status = false) (h2 : (t.status == "Doing") = true) :
    count_step (n, none) t = (n, some t) := by
  simp [count_step, h, h2]

theorem count_step_none (n : Nat) (t : SnapdTask)
    (h : status_is_done t.status = false) (h2 : (t.status == "Doing") = false) :
    count_step (n, none) t = (n, none) := by
  simp [count_step, h, h2]

/- The scanning loop of update_inhibited_snaps computes the number of tasks
with terminal status and the first task whose status is exactly Doing. -/

theorem count_done_go (tasks : List SnapdTask) (n : Nat) (cur : Option SnapdTask) :
    tasks.foldl count_step (n, cur) =
    (n + (tasks.filter fun t => status_is_done t.status).length,
     match cur with
     | some c => some c
     | none => tasks.find? fun t => t.status == "Doing") := by
  induction tasks generalizing n cur with
  | nil => cases cur <;> simp
  | cons t ts ih =>
    rw [List.foldl_cons]
    by_cases hd : status_is_done t.status = true
    · have hnd := status_is_done_ne_doing t.status hd
      rw [count_step_done n cur t hd, ih]
      cases cur with
      | some c =>
        simp only [List.filter_cons, hd, if_true, List.length_cons, Prod.mk.injEq]
        exact ⟨by omega, trivial⟩
      | none =>
        simp only [List.filter_cons, hd, if_true, List.length_cons, List.find?_cons,
          hnd, Prod.mk.injEq]
        exact ⟨by omega, trivial⟩
    · simp only [Bool.not_eq_true] at hd
      cases cur with
      | some c =>
        rw [count_step_some n c t hd, ih]
        simp [List.filter_cons, hd]
      | none =>
        by_cases hdo : (t.status == "Doing") = true
        · rw [count_step_found n t hd hdo, ih]
          simp [List.filter_cons, hd, List.find?_cons, hdo]
        · simp only [Bool.not_eq_true] at hdo
          rw [count_step_none n t hd hdo, ih]
          simp [List.filter_cons, hd, List.find?_cons, hdo]

theorem count_done_and_current_spec (tasks : List SnapdTask) :
    count_done_and_current tasks =
      ((tasks.filter fun t => status_is_done t.status).length,
       tasks.find? fun t => t.status == "Doing") := by
  rw [count_done_and_current, count_done_go tasks 0 none]
  simp

/- update_inhibited_snaps touches only the snaps store: the pending changeId
set and the outstanding timers are untouched, and no timer-scheduling action
is emitted. -/

theorem update_inhibited_one_inv (change : SnapdChange) (done cancelled : Bool)
    (acc : SdiRefreshMonitor × List MonitorAction) (snap_name : String)
    (h : ∀ a ∈ acc.2, is_schedule_action a = false) :
    (update_inhibited_one change done cancelled acc snap_name).1.changes = acc.1.changes ∧
    (update_inhibited_one change done cancelled acc snap_name).1.timers = acc.1.timers ∧
    ∀ a ∈ (update_inhibited_one change done cancelled acc snap_name).2,
      is_schedule_action a = false := by
  have hx : ∀ (x : MonitorAction), is_schedule_action x = false →
      ∀ a ∈ acc.2 ++ [x], is_schedule_action a = false := by
    intro x hxv a ha
    rcases List.mem_append.mp ha with h1 | h1
    · exact h a h1
    · rw [List.mem_singleton.mp h1]; exact hxv
  unfold update_inhibited_one
  repeat' split
  all_goals first
    | exact ⟨rfl, rfl, h⟩
    | exact ⟨rfl, rfl, hx _ rfl⟩

theorem update_inhibited_fold_inv (change : SnapdChange) (done cancelled : Bool)
    (names : List String) (acc : SdiRefreshMonitor × List MonitorAction)
    (h : ∀ a ∈ acc.2, is_schedule_action a = false) :
    (names.foldl (update_inhibited_one change done cancelled) acc).1.changes =
      acc.1.changes ∧
    (names.foldl (update_inhibited_one change done cancelled) acc).1.timers =
      acc.1.timers ∧
    ∀ a ∈ (names.foldl (update_inhibited_one change done cancelled) acc).2,
      is_schedule_action a = false := by
  induction names generalizing acc with
  | nil => exact ⟨rfl, rfl, h⟩
  | cons nm rest ih =>
    rw [List.foldl_cons]
    have h1 := update_inhibited_one_inv change done cancelled acc nm h
    have h2 := ih (update_inhibited_one change done cancelled acc nm) h1.2.2
    exact ⟨h2.1.trans h1.1, h2.2.1.trans h1.2.1, h2.2.2⟩

theorem update_inhibited_snaps_inv (self : SdiRefreshMonitor) (change : SnapdChange)
    (done cancelled : Bool) :
    (update_inhibited_snaps self change done cancelled).1.changes = self.changes ∧
    (update_inhibited_snaps self change done cancelled).1.timers = self.timers ∧
    ∀ a ∈ (update_inhibited_snaps self change done cancelled).2,
      is_schedule_action a = false := by
  unfold update_inhibited_snaps
  split
  · exact ⟨rfl, rfl, by simp⟩
  · exact update_inhibited_fold_inv _ _ _ _ _ (by simp)

/- update_dock_bar only ever emits launcher-entry updates. -/

theorem update_dock_bar_no_schedule (td : SnapProgressTaskData) :
    ∀ a ∈ (update_dock_bar td).2, is_schedule_action a = false := by
  intro a ha
  unfold update_dock_bar at ha
  dsimp only at ha
  split at ha
  · simp at ha
  · split at ha
    · simp at ha
    · split at ha
      · simp at ha
      · rcases List.mem_map.mp ha with ⟨f, _, rfl⟩
        rfl

theorem update_dock_snaps_inv (env : String → List String) (self : SdiRefreshMonitor)
    (change : SnapdChange) (done cancelled : Bool) :
    (update_dock_snaps env self change done cancelled).1.changes = self.changes ∧
    (update_dock_snaps env self change done cancelled).1.timers = self.timers ∧
    ∀ a ∈ (update_dock_snaps env self change done cancelled).2,
      is_schedule_action a = false := by
  refine ⟨rfl, rfl, ?_⟩
  intro a ha
  unfold update_dock_snaps at ha
  simp only [List.mem_flatten, List.mem_map] at ha
  obtain ⟨l, ⟨kv, ⟨kv2, hkv2, rfl⟩, rfl⟩, hal⟩ := ha
  exact update_dock_bar_no_schedule _ a hal

/- The two passes run by manage_change_update before its scheduling check
leave the pending changeId set and the timers untouched and emit no
timer-scheduling action. -/

theorem manage_change_steps_inv (env : String → List String) (self : SdiRefreshMonitor)
    (change : SnapdChange) (done cancelled : Bool) :
    (manage_change_steps env self change done cancelled).1.changes = self.changes ∧
    (manage_change_steps env self change done cancelled).1.timers = self.timers ∧
    ∀ a ∈ (manage_change_steps env self change done cancelled).2,
      is_schedule_action a = false := by
  unfold manage_change_steps
  dsimp only
  split
  · have h1 := update_inhibited_snaps_inv self change done cancelled
    have h2 := update_dock_snaps_inv env
      (update_inhibited_snaps self change done cancelled).1 change done cancelled
    refine ⟨h2.1.trans h1.1, h2.2.1.trans h1.2.1, ?_⟩
    intro a ha
    rcases List.mem_append.mp ha with hA | hA
    · exact h1.2.2 a hA
    · exact h2.2.2 a hA
  · have h2 := update_dock_snaps_inv env self change done cancelled
    refine ⟨h2.1, h2.2.1, ?_⟩
    intro a ha
    rcases List.mem_append.mp ha with hA | hA
    · simp at hA
    · exact h2.2.2 a hA

/- Handling a change update for a changeId that already has a pending poll
timer: no scheduling happens and both timer stores are untouched. -/

theorem manage_change_update_dup (env : String → List String)
    (self : SdiRefreshMonitor) (change : SnapdChange)
    (h2 : change.id ∈ self.changes) :
    (manage_change_update env self (.ok (some change))).1.timers = self.timers ∧
    (manage_change_update env self (.ok (some change))).1.changes = self.changes ∧
    ∀ c, MonitorAction.scheduleTimer c ∉ (manage_change_update env self (.ok (some change))).2 := by
  unfold manage_change_update
  dsimp only
  have hs := manage_change_steps_inv env self change (done_change_status change.status)
    (cancelled_change_status change.status)
  split
  · refine ⟨rfl, rfl, ?_⟩
    intro c hc
    simp at hc
  · split
    · rename_i hg
      exfalso
      apply hg.2.2
      rw [hs.1]
      exact h2
    · refine ⟨hs.2.1, hs.1, ?_⟩
      intro c hc
      have hv := hs.2.2 _ hc
      simp [is_schedule_action] at hv

/- Preservation of the timer invariant by manage_change_update. -/

theorem manage_change_update_timers_ok (env : String → List String)
    (self : SdiRefreshMonitor) (res : ChangeResult) (h : timers_ok self) :
    timers_ok (manage_change_update env self res).1 := by
  cases res with
  | cancelledError => exact h
  | otherError msg => exact h
  | ok oc =>
    cases oc with
    | none => exact h
    | some change =>
      unfold manage_change_update
      dsimp only
      split
      · exact h
      · have hs := manage_change_steps_inv env self change (done_change_status change.status)
          (cancelled_change_status change.status)
        obtain ⟨hnt, hnc, hiff⟩ := h
        split
        · rename_i hg
          have hnotc : change.id ∉ self.changes := by
            intro hmem
            apply hg.2.2
            rw [hs.1]
            exact hmem
          have hnott : change.id ∉ self.timers := fun hm => hnotc ((hiff change.id).mp hm)
          refine ⟨?_, ?_, ?_⟩
          · rw [List.nodup_cons]
            exact ⟨by rw [hs.2.1]; exact hnott, by rw [hs.2.1]; exact hnt⟩
          · rw [List.nodup_cons]
            exact ⟨by rw [hs.1]; exact hnotc, by rw [hs.1]; exact hnc⟩
          · intro id
            rw [List.mem_cons, List.mem_cons, hs.2.1, hs.1, hiff id]
        · refine ⟨?_, ?_, ?_⟩
          · rw [hs.2.1]; exact hnt
          · rw [hs.1]; exact hnc
          · intro id
            rw [hs.2.1, hs.1]
            exact hiff id

/- Firing a poll timer: the one-shot source is consumed, the changeId leaves
the pending set before the re-fetch is issued, and the invariant holds. -/

theorem fire_poll_timer_spec (self : SdiRefreshMonitor) (cid : String)
    (h1 : timers_ok self) :
    timers_ok (fire_poll_timer self cid).1 ∧
    (fire_poll_timer self cid).2 =
      [MonitorAction.removePending cid, MonitorAction.fetchChange cid] ∧
    cid ∉ (fire_poll_timer self cid).1.changes := by
  obtain ⟨hnt, hnc, hiff⟩ := h1
  unfold fire_poll_timer refresh_change
  dsimp only
  refine ⟨⟨hnt.erase cid, hnc.erase cid, ?_⟩, rfl, ?_⟩
  · intro id
    rw [List.Nodup.mem_erase_iff hnt, List.Nodup.mem_erase_iff hnc, hiff id]
  · intro hmem
    rw [List.Nodup.mem_erase_iff hnc] at hmem
    exact hmem.1 rfl

/-- C1: for every changeId at most one outstanding poll timer exists at any
time.  The timer invariant (timer sources in bijection with the pending set,
no duplicates) is preserved by every change-update handler run and by every
timer fire; handling an update for a changeId that already has a pending
timer leaves the timer stores unchanged and emits no scheduling request; and
when a poll timer fires, the trace is exactly the removal of the changeId
from the pending set followed by the re-fetch request, so the changeId is no
longer pending when the fetch is issued. -/
theorem poll_timer_uniqueness (env : String → List String) (self : SdiRefreshMonitor)
    (change : SnapdChange) (res : ChangeResult) (cid : String)
    (h1 : timers_ok self) (h2 : change.id ∈ self.changes) :
    timers_ok (manage_change_update env self res).1 ∧
    timers_ok (fire_poll_timer self cid).1 ∧
    (manage_change_update env self (.ok (some change))).1.timers = self.timers ∧
    (manage_change_update env self (.ok (some change))).1.changes = self.changes ∧
    (∀ c, MonitorAction.scheduleTimer c ∉
      (manage_change_update env self (.ok (some change))).2) ∧
    (fire_poll_timer self cid).2 =
      [MonitorAction.removePending cid, MonitorAction.fetchChange cid] ∧
    cid ∉ (fire_poll_timer self cid).1.changes := by
  have hd := manage_change_update_dup env self change h2
  have hf := fire_poll_timer_spec self cid h1
  exact ⟨manage_change_update_timers_ok env self res h1, hf.1, hd.1, hd.2.1, hd.2.2,
    hf.2.1, hf.2.2⟩

/-- C1 witness: a monitor with one pending timer for changeId 1, receiving a
duplicate non-terminal update for the same change. -/
theorem poll_timer_uniqueness_witness :
    timers_ok c1_monitor ∧ c1_change.id ∈ c1_monitor.changes ∧
    (manage_change_update no_desktop_env c1_monitor
      (ChangeResult.ok (some c1_change))).1.timers = c1_monitor.timers ∧
    (fire_poll_timer c1_monitor "1").2 =
      [MonitorAction.removePending "1", MonitorAction.fetchChange "1"] := by
  have h1 : timers_ok c1_monitor := ⟨by decide, by decide, fun id => Iff.rfl⟩
  have h2 : c1_change.id ∈ c1_monitor.changes := by decide
  have hmain := poll_timer_uniqueness no_desktop_env c1_monitor c1_change
    (ChangeResult.ok (some c1_change)) "1" h1 h2
  exact ⟨h1, h2, hmain.2.2.1, hmain.2.2.2.2.2.1⟩

/-- C2 counterexample: a terminal (Done) update fetched for changeId 7 while
a poll timer for 7 is still pending does NOT remove the tracker entry: the
handler leaves the changeId in the tracked set, so the removal claimed to be
part of handling the terminal update does not happen there (it happens only
when the pending timer fires). -/
theorem terminal_update_keeps_tracker_entry :
    done_change_status c2_change.status = true ∧
    c2_change.id ∈ c2_monitor.changes ∧
    (manage_change_update no_desktop_env c2_monitor
      (ChangeResult.ok (some c2_change))).1.changes = ["7"] := by
  refine ⟨rfl, by decide, ?_⟩
  rfl

/-- C2 (amended): whenever a fetched change classifies as done or cancelled,
no poll timer is scheduled or re-armed for that changeId, and the handler
leaves the tracked-changes set and the outstanding timers unchanged; a
still-present entry is removed only when its pending timer fires, not as
part of handling the terminal update. -/
theorem terminal_update_no_reschedule (env : String → List String)
    (self : SdiRefreshMonitor) (change : SnapdChange)
    (h : done_change_status change.status = true ∨
         cancelled_change_status change.status = true) :
    (manage_change_update env self (.ok (some change))).1.changes = self.changes ∧
    (manage_change_update env self (.ok (some change))).1.timers = self.timers ∧
    ∀ c, MonitorAction.scheduleTimer c ∉
      (manage_change_update env self (.ok (some change))).2 := by
  unfold manage_change_update
  dsimp only
  have hs := manage_change_steps_inv env self change (done_change_status change.status)
    (cancelled_change_status change.status)
  split
  · refine ⟨rfl, rfl, ?_⟩
    intro c hc
    simp at hc
  · split
    · rename_i hg
      exfalso
      rcases h with h | h
      · rw [h] at hg
        exact absurd hg.1 (by simp)
      · rw [h] at hg
        exact absurd hg.2.1 (by simp)
    · refine ⟨hs.1, hs.2.1, ?_⟩
      intro c hc
      have hv := hs.2.2 _ hc
      simp [is_schedule_action] at hv

/-- C2 witness for the amended statement: the same terminal update as the
counterexample, showing the tracked set is left unchanged. -/
theorem terminal_update_no_reschedule_witness :
    (done_change_status c2_change.status = true ∨
     cancelled_change_status c2_change.status = true) ∧
    (manage_change_update no_desktop_env c2_monitor
      (ChangeResult.ok (some c2_change))).1.changes = c2_monitor.changes :=
  ⟨Or.inl rfl,
   (terminal_update_no_reschedule no_desktop_env c2_monitor c2_change (Or.inl rfl)).1⟩

/-- C5: a fetched change classifies as done exactly on status Done, as
cancelled exactly on Undoing, Undone, Undo or Error, and as valid exactly on
Do, Doing or Done; a status that is neither valid nor cancelled makes the
handler drop the update, leaving the whole state untouched and emitting only
the debug log, in particular scheduling no poll. -/
theorem change_status_classification (env : String → List String)
    (self : SdiRefreshMonitor) (change : SnapdChange) (s : String)
    (h : valid_working_change_status change.status = false ∧
         cancelled_change_status change.status = false) :
    (done_change_status s = true ↔ s = "Done") ∧
    (cancelled_change_status s = true ↔
      (s = "Undoing" ∨ s = "Undone" ∨ s = "Undo" ∨ s = "Error")) ∧
    (valid_working_change_status s = true ↔ (s = "Do" ∨ s = "Doing" ∨ s = "Done")) ∧
    manage_change_update env self (.ok (some change)) =
      (self, [MonitorAction.logMessage change.status]) := by
  refine ⟨?_, ?_, ?_, ?_⟩
  · simp [done_change_status]
  · simp [cancelled_change_status, Bool.or_eq_true, beq_iff_eq, or_assoc]
  · simp [valid_working_change_status, Bool.or_eq_true, beq_iff_eq, or_assoc]
  · unfold manage_change_update
    dsimp only
    rw [if_pos (by rw [h.1, h.2]; rfl)]

/-- C5 witness: status Hold is task-terminal but is neither a valid nor a
cancelled change status, so the update is dropped. -/
theorem change_status_classification_witness :
    (valid_working_change_status c5_change.status = false ∧
     cancelled_change_status c5_change.status = false) ∧
    manage_change_update no_desktop_env empty_monitor
      (ChangeResult.ok (some c5_change)) =
      (empty_monitor, [MonitorAction.logMessage "Hold"]) :=
  ⟨⟨rfl, rfl⟩,
   (change_status_classification no_desktop_env empty_monitor c5_change "Done"
     ⟨rfl, rfl⟩).2.2.2⟩

/-- C6: a change-update notice delivered with the first-run flag set is
ignored unconditionally, whatever its kind and key: no fetch is issued and
the monitor state, in particular the package store, the tracked-changes set
and the progress map, is returned unchanged. -/
theorem first_run_change_update_ignored (self : SdiRefreshMonitor)
    (kind key : String) :
    notice_cb self { notice_type := .changeUpdate, kind := kind, key := key } true =
      (self, []) := rfl

/-- C10: a refresh-inhibit notice is dispatched identically whether the
first-run flag is set or not; in both cases the query for all
refresh-inhibited packages is issued. -/
theorem refresh_inhibit_same_on_first_run (self : SdiRefreshMonitor)
    (kind key : String) (first_run : Bool) :
    notice_cb self { notice_type := .refreshInhibit, kind := kind, key := key }
        first_run =
      (self, [MonitorAction.getSnapsRefreshInhibited]) := rfl

/- The generic-data branch of begin_application_refresh is a no-op when the
package already has a bound dialog. -/

theorem begin_refresh_generic_noop (self : SdiRefreshMonitor) (snap_name : String)
    (d : DialogInfo)
    (h : (find_snap self snap_name).bind (fun snap => snap.dialog) = some d) :
    begin_refresh_generic self snap_name = (self, []) := by
  unfold begin_refresh_generic add_snap
  cases hf : find_snap self snap_name with
  | none =>
    rw [hf] at h
    simp at h
  | some snap =>
    rw [hf] at h
    simp only [Option.some_bind] at h
    simp [h]

/-- C3: at most one dialog handle is bound per package at any time: when the
asynchronous package-info query completes, with success, with a non-cancelled
failure, or with no snap returned, and the package it would bind a dialog for
already has one bound, the handler neither changes the package store nor
requests a dialog creation, so the late completion is a no-op. -/
theorem single_dialog_per_package (self : SdiRefreshMonitor) (query_snap_name : String)
    (res : SnapInfoResult) (d : DialogInfo)
    (h : ∀ t, query_target query_snap_name res = some t →
      (find_snap self t).bind (fun snap => snap.dialog) = some d) :
    begin_application_refresh self query_snap_name res = (self, []) := by
  cases res with
  | cancelledError => rfl
  | otherError msg =>
    exact begin_refresh_generic_noop self query_snap_name d (h query_snap_name rfl)
  | ok osnap =>
    cases osnap with
    | none =>
      exact begin_refresh_generic_noop self query_snap_name d (h query_snap_name rfl)
    | some info =>
      have hd := h info.name rfl
      unfold begin_application_refresh add_snap
      cases hf : find_snap self info.name with
      | none =>
        rw [hf] at hd
        simp at hd
      | some snap =>
        rw [hf] at hd
        simp only [Option.some_bind] at hd
        simp [hf, hd]

/-- C3 witness: a record for spotify with a dialog already bound; a late
query completion with no snap data does not create or bind a second one. -/
theorem single_dialog_per_package_witness :
    (find_snap c3_monitor "spotify").bind (fun snap => snap.dialog) = some c3_dialog ∧
    begin_application_refresh c3_monitor "spotify" (SnapInfoResult.ok none) =
      (c3_monitor, []) := by
  have h : ∀ t, query_target "spotify" (SnapInfoResult.ok none) = some t →
      (find_snap c3_monitor t).bind (fun snap => snap.dialog) = some c3_dialog := by
    intro t ht
    have heq : "spotify" = t := by injection ht
    rw [← heq]
    rfl
  exact ⟨h "spotify" rfl,
    single_dialog_per_package c3_monitor "spotify" (SnapInfoResult.ok none) c3_dialog h⟩

/-- C4: one aggregation pass over a ProgressEntry.  An entry with zero total
tasks is skipped unchanged.  Otherwise both counters are reset to zero for
the next pass; when the fraction equals the last emitted one and the entry is
not terminal the emission is suppressed and the recorded fraction is kept;
otherwise the new fraction is recorded and the update with progress equal to
the fraction and visibility and updating flags equal to the negated terminal
flag is emitted to every captured presentation target. -/
theorem update_dock_bar_pass_spec (td : SnapProgressTaskData) :
    (td.total_tasks = 0 → update_dock_bar td = (td, [])) ∧
    (td.total_tasks ≠ 0 →
      (update_dock_bar td).1.total_tasks = 0 ∧
      (update_dock_bar td).1.done_tasks = 0 ∧
      (update_dock_bar td).1.desktop_files = td.desktop_files ∧
      (((td.done_tasks : Rat) / (td.total_tasks : Rat) = td.old_progress ∧
          td.done = false) →
        update_dock_bar td = ({ td with done_tasks := 0, total_tasks := 0 }, [])) ∧
      (¬((td.done_tasks : Rat) / (td.total_tasks : Rat) = td.old_progress ∧
          td.done = false) →
        (update_dock_bar td).1.old_progress =
          (td.done_tasks : Rat) / (td.total_tasks : Rat) ∧
        (update_dock_bar td).2 = td.desktop_files.map fun f =>
          MonitorAction.emitUpdate f ((td.done_tasks : Rat) / (td.total_tasks : Rat))
            (!td.done) (!td.done))) := by
  constructor
  · intro h
    unfold update_dock_bar
    simp [h]
  · intro h
    unfold update_dock_bar
    dsimp only
    rw [if_neg h]
    by_cases hc : (td.done_tasks : Rat) / (td.total_tasks : Rat) = td.old_progress ∧
        td.done = false
    · rw [if_pos hc]
      exact ⟨rfl, rfl, rfl, fun _ => rfl, fun hq => absurd hc hq⟩
    · rw [if_neg hc]
      by_cases hl : td.desktop_files.length = 0
      · rw [if_pos hl]
        have hfiles : td.desktop_files = [] := List.length_eq_zero.mp hl
        refine ⟨rfl, rfl, rfl, fun hq => absurd hq hc, fun _ => ⟨rfl, ?_⟩⟩
        rw [hfiles]
        rfl
      · rw [if_neg hl]
        exact ⟨rfl, rfl, rfl, fun hq => absurd hq hc, fun _ => ⟨rfl, rfl⟩⟩

/-- C4 witness: an entry with 10 total and 3 done tasks, last fraction unset
(the sentinel -1), not terminal, with one captured target: the pass resets
the counters, records the fraction 3 over 10, and emits to the target. -/
theorem update_dock_bar_pass_spec_witness :
    c4_td.total_tasks ≠ 0 ∧
    (update_dock_bar c4_td).1.total_tasks = 0 ∧
    (update_dock_bar c4_td).1.done_tasks = 0 ∧
    (update_dock_bar c4_td).2 = c4_td.desktop_files.map (fun f =>
      MonitorAction.emitUpdate f ((c4_td.done_tasks : Rat) / (c4_td.total_tasks : Rat))
        (!c4_td.done) (!c4_td.done)) := by
  have hne : c4_td.total_tasks ≠ 0 := by decide
  have hcond : ¬((c4_td.done_tasks : Rat) / (c4_td.total_tasks : Rat) =
      c4_td.old_progress ∧ c4_td.done = false) := by
    intro hq
    have h1 : ((3 : Nat) : Rat) / ((10 : Nat) : Rat) = (-1 : Rat) := hq.1
    norm_num at h1
  have hmain := (update_dock_bar_pass_spec c4_td).2 hne
  exact ⟨hne, hmain.1, hmain.2.1, (hmain.2.2.2.2 hcond).2⟩

/-- C9: a ProgressEntry whose presentation-target lookup found zero targets
never emits a presentation update in any pass, the empty target list persists
across passes, and creating such an entry yields the all-zero record with the
sentinel fraction. -/
theorem zero_desktop_files_no_emission (td : SnapProgressTaskData)
    (h : td.desktop_files = []) :
    (update_dock_bar td).2 = [] ∧
    (update_dock_bar td).1.desktop_files = [] ∧
    new_progress_task_data [] =
      { total_tasks := 0, done_tasks := 0, old_progress := -1, done := false,
        desktop_files := [] } := by
  refine ⟨?_, ?_, rfl⟩ <;>
    (unfold update_dock_bar; dsimp only; repeat' split) <;> simp [h]

/-- C9 witness: an entry with zero captured targets and a pass with 3 total
and 1 done tasks emits nothing. -/
theorem zero_desktop_files_no_emission_witness :
    c9_td.desktop_files = [] ∧ (update_dock_bar c9_td).2 = [] :=
  ⟨rfl, (zero_desktop_files_no_emission c9_td rfl).1⟩

/- The ignored flag seen through the store, before and after the mutations
performed by the refresh-inhibit handler. -/

theorem snap_ignored_flag_set (self : SdiRefreshMonitor) (key : String)
    (snap : SdiSnap) (n : String) :
    snap_ignored_flag (set_snap self key snap) n =
      if key = n then snap.ignored else snap_ignored_flag self n := by
  unfold snap_ignored_flag set_snap find_snap
  by_cases hn : key = n
  · subst hn
    simp [alist_lookup_insert_self]
  · rw [if_neg hn, alist_lookup_insert_ne _ _ _ _ hn]

theorem inhibit_step_components
    (acc : SdiRefreshMonitor × Bool × List String × List MonitorAction)
    (snap_name : String) :
    (inhibit_step acc snap_name).2.1 =
      (acc.2.1 || !snap_ignored_flag acc.1 snap_name) ∧
    (inhibit_step acc snap_name).2.2.1 = acc.2.2.1 ++ [snap_name] ∧
    (inhibit_step acc snap_name).2.2.2 =
      acc.2.2.2 ++ [MonitorAction.checkForcedRefresh snap_name] ∧
    ∀ n, snap_ignored_flag (inhibit_step acc snap_name).1 n =
      snap_ignored_flag acc.1 n := by
  unfold inhibit_step add_snap
  cases hf : find_snap acc.1 snap_name with
  | some snap =>
    dsimp only
    refine ⟨?_, rfl, rfl, ?_⟩
    · simp [snap_ignored_flag, hf]
    · intro n
      rw [snap_ignored_flag_set]
      by_cases hn : snap_name = n
      · subst hn
        simp [snap_ignored_flag, hf]
      · rw [if_neg hn]
  | none =>
    dsimp only
    refine ⟨?_, rfl, rfl, ?_⟩
    · simp [snap_ignored_flag, hf, sdi_snap_new]
    · intro n
      have hset : ({ acc.1 with
          snaps := alist_insert acc.1.snaps snap_name (sdi_snap_new snap_name) } :
            SdiRefreshMonitor) =
          set_snap acc.1 snap_name (sdi_snap_new snap_name) := rfl
      rw [hset, snap_ignored_flag_set, snap_ignored_flag_set]
      by_cases hn : snap_name = n
      · subst hn
        simp [snap_ignored_flag, hf, sdi_snap_new]
      · rw [if_neg hn, if_neg hn]

/- The snap loop of manage_refresh_inhibit: the grouped flag accumulates the
negated ignored flags as read from the initial store, the list-store collects
the names in order, and the trace collects one forced-refresh check per
name. -/

theorem inhibit_fold_spec (self0 : SdiRefreshMonitor) (names : List String)
    (st : SdiRefreshMonitor) (sh : Bool) (lst : List String)
    (acts : List MonitorAction)
    (hinv : ∀ n, snap_ignored_flag st n = snap_ignored_flag self0 n) :
    (names.foldl inhibit_step (st, sh, lst, acts)).2.1 =
      (sh || names.any fun n => !snap_ignored_flag self0 n) ∧
    (names.foldl inhibit_step (st, sh, lst, acts)).2.2.1 = lst ++ names ∧
    (names.foldl inhibit_step (st, sh, lst, acts)).2.2.2 =
      acts ++ names.map MonitorAction.checkForcedRefresh ∧
    ∀ n, snap_ignored_flag (names.foldl inhibit_step (st, sh, lst, acts)).1 n =
      snap_ignored_flag self0 n := by
  induction names generalizing st sh lst acts with
  | nil => refine ⟨by simp, by simp, by simp, hinv⟩
  | cons nm rest ih =>
    rw [List.foldl_cons]
    have hstep := inhibit_step_components (st, sh, lst, acts) nm
    have ih2 := ih (inhibit_step (st, sh, lst, acts) nm).1
      (inhibit_step (st, sh, lst, acts) nm).2.1
      (inhibit_step (st, sh, lst, acts) nm).2.2.1
      (inhibit_step (st, sh, lst, acts) nm).2.2.2
      (fun n => (hstep.2.2.2 n).trans (hinv n))
    refine ⟨?_, ?_, ?_, fun n => ih2.2.2.2 n⟩
    · rw [ih2.1, hstep.1, hinv nm]
      simp [Bool.or_assoc]
    · rw [ih2.2.1, hstep.2.1]
      simp
    · rw [ih2.2.2.1, hstep.2.2.1]
      simp

/-- C8: when the inhibited-packages query returns a non-empty list, the only
group prompt that can be emitted carries exactly the returned packages (so
every returned package, ignored or not, appears in it), and it is emitted
exactly when at least one returned package is not marked ignored in the
store, a fresh record counting as not ignored. -/
theorem refresh_inhibit_group_prompt (self : SdiRefreshMonitor) (names : List String)
    (h : names ≠ []) :
    (∀ L, MonitorAction.emitPendingRefresh L ∈
        (manage_refresh_inhibit self (.ok names)).2 → L = names) ∧
    (MonitorAction.emitPendingRefresh names ∈
        (manage_refresh_inhibit self (.ok names)).2 ↔
      (names.any fun n => !snap_ignored_flag self n) = true) := by
  unfold manage_refresh_inhibit
  dsimp only
  rw [if_neg (by simpa [List.isEmpty_iff] using h)]
  have hfold := inhibit_fold_spec self names self false [] [] (fun n => rfl)
  split
  · rename_i hshow
    rw [hfold.2.2.1, hfold.2.1]
    simp only [List.nil_append]
    have hany : (names.any fun n => !snap_ignored_flag self n) = true := by
      have h1 := hfold.1
      rw [h1] at hshow
      simpa using hshow
    constructor
    · intro L hL
      rcases List.mem_append.mp hL with hA | hA
      · exfalso
        rcases List.mem_map.mp hA with ⟨x, _, hx⟩
        exact MonitorAction.noConfusion hx
      · simpa using hA
    · constructor
      · intro _
        exact hany
      · intro _
        exact List.mem_append.mpr (Or.inr (List.mem_singleton.mpr rfl))
  · rename_i hshow
    rw [hfold.2.2.1]
    simp only [List.nil_append]
    have hany : (names.any fun n => !snap_ignored_flag self n) = false := by
      have h1 := hfold.1
      rw [h1] at hshow
      simpa using hshow
    constructor
    · intro L hL
      exfalso
      rcases List.mem_map.mp hL with ⟨x, _, hx⟩
      exact MonitorAction.noConfusion hx
    · constructor
      · intro hL
        exfalso
        rcases List.mem_map.mp hL with ⟨x, _, hx⟩
        exact MonitorAction.noConfusion hx
      · intro hc
        rw [hany] at hc
        exact absurd hc (by simp)

/-- C8 witness: packages A (no prior record) and B (already ignored): the
group prompt fires because A is not ignored, and the prompt list is the
returned list. -/
theorem refresh_inhibit_group_prompt_witness :
    (["A", "B"] : List String) ≠ [] ∧
    (MonitorAction.emitPendingRefresh ["A", "B"] ∈
        (manage_refresh_inhibit c8_monitor (SnapsResult.ok ["A", "B"])).2 ↔
      ((["A", "B"] : List String).any fun n => !snap_ignored_flag c8_monitor n) =
        true) :=
  ⟨by decide, (refresh_inhibit_group_prompt c8_monitor ["A", "B"] (by decide)).2⟩

/-- C7 counterexample: a package seen for the first time (no record in the
store) gets NO progress push at all from an auto-refresh change with task
statuses Done, Doing, Do: the loop skips unknown packages, so the claimed
push of the Doing summary as 1 of 3 does not happen for a first-seen
package. -/
theorem first_seen_package_no_progress_push :
    find_snap empty_monitor "firefox" = none ∧
    update_inhibited_snaps empty_monitor c7_change false false =
      (empty_monitor, []) := by
  exact ⟨rfl, by decide⟩

/-- C7 (amended): the progress push happens for a package whose record is
inhibited, not hidden, not manually hidden and has a dialog bound.  For such
a package, in a non-terminal change, the store is unchanged and the trace is
exactly one push of the summary of the first task whose status is exactly
Doing, with the count of tasks whose status is terminal (one of Done, Abort,
Error, Hold, Wait, Undone) and the total task count; when no task has status
Doing, no push occurs.  A package seen for the first time has no record and
gets no push. -/
theorem bound_dialog_progress_push (self : SdiRefreshMonitor) (change : SnapdChange)
    (snap_name : String) (snap : SdiSnap) (d : DialogInfo)
    (h1 : find_snap self snap_name = some snap) (h2 : snap.inhibited = true)
    (h3 : snap.hidden = false) (h4 : snap.manually_hidden = false)
    (h5 : snap.dialog = some d) (h6 : change.snap_names = some [snap_name]) :
    (update_inhibited_snaps self change false false).1 = self ∧
    (update_inhibited_snaps self change false false).2 =
      (match change.tasks.find? (fun t => t.status == "Doing") with
       | some current =>
         [MonitorAction.pushProgress d.app_name current.summary
           ((change.tasks.filter fun t => status_is_done t.status).length)
           change.tasks.length]
       | none => []) := by
  unfold update_inhibited_snaps
  rw [h6]
  dsimp only
  rw [List.foldl_cons, List.foldl_nil]
  unfold update_inhibited_one
  dsimp only
  rw [h1, count_done_and_current_spec]
  cases hfind : change.tasks.find? (fun t => t.status == "Doing") with
  | some current => simp [h2, h3, h4, h5, hfind]
  | none => simp [h2, h3, h4, h5, hfind]

/-- C7 witness: firefox has a bound dialog and an inhibited, visible record;
the change carries tasks Done, Doing, Do, so the push carries the summary of
the Doing task with done count 1 and total 3. -/
theorem bound_dialog_progress_push_witness :
    find_snap c7_monitor "firefox" = some c7_snap ∧
    (update_inhibited_snaps c7_monitor c7_change false false).2 =
      [MonitorAction.pushProgress "firefox" "unpack" 1 3] := by
  have hmain := bound_dialog_progress_push c7_monitor c7_change "firefox" c7_snap
    c7_dialog rfl rfl rfl rfl rfl rfl
  refine ⟨rfl, ?_⟩
  rw [hmain.2]
  rfl
